import Mathlib

/-!
Shallow embedding of `src/server.js` of the `nowoptics-back` repository:
a chat-message CRUD service over a key-value store (Redis) plus a
WebSocket hub that relays WebRTC signaling frames (offer / answer /
candidate) between registered clients and broadcasts message-lifecycle
events to the connections held in the `clients` map.

Modelling conventions:
- Connection handles (the `ws` objects) are natural numbers.
- The module-level `const clients = new Map()` is its entry list in
  insertion order; JS `Map` preserves insertion order and has unique keys.
- JS `undefined` for an optional frame field is `Option.none`;
  `JSON.stringify` omits `undefined`-valued properties, so a field that is
  `none` is absent from the serialized frame.
- ISO-8601 timestamps produced by `new Date().toISOString()` are modelled
  as natural-number instants (their chronological order is the
  lexicographic order of the strings).
-/

/-- Connection handles (`ws` objects) are modelled as natural numbers. -/
abbrev Conn := Nat

/-- Registry keys. The `clients` map is keyed by `parsedMessage.userKey`;
a frame without a `userKey` field registers under the key `undefined`,
modelled as `none`. -/
abbrev Key := Option String

/-- The module-level `const clients = new Map()` of `src/server.js`
(line 208), as its entry list in insertion order. -/
abbrev ClientMap := List (Key × Conn)

/-- JS `clients.get(k)` (`Map.prototype.get`): the value stored under key
`k`, or `undefined` (here `none`) when absent. -/
def clientsGet (m : ClientMap) (k : Key) : Option Conn :=
  match m.find? (fun e => e.1 == k) with
  | some e => some e.2
  | none => none

/-- JS `clients.set(k, c)` (`Map.prototype.set`): replaces the value in
place when `k` is already a key (keeping its position), otherwise appends
a new entry at the end. -/
def clientsSet (m : ClientMap) (k : Key) (c : Conn) : ClientMap :=
  if m.any (fun e => e.1 == k) then
    m.map (fun e => if e.1 == k then (k, c) else e)
  else
    m ++ [(k, c)]

/-- The `ws.on('close')` handler of `src/server.js` (lines 234-241):
`clients.forEach((client, userKey) => { if (client === ws)
clients.delete(userKey); })` — removes every entry whose value is the
closing connection (deleting the visited entry during `Map.forEach` is
safe in JS, so this is exactly a filter). -/
def clientsRemoveConn (m : ClientMap) (c : Conn) : ClientMap :=
  m.filter (fun e => e.2 != c)

/-- A parsed inbound JSON frame (`parsedMessage` in `src/server.js`).
Optional fields model JS `undefined` as `none`; `extra` carries any
further caller-attached fields (for example `sdp`) verbatim, as
key-value pairs. -/
structure Frame where
  type : String
  userKey : Option String
  target : Option String
  sender : Option String
  extra : List (String × String)
deriving Repr, DecidableEq

/-- An inbound socket message: either raw text that `JSON.parse` rejects
(handled by the `catch` branch, which only logs) or a successfully
parsed frame. -/
inductive Raw where
  | malformed : Raw
  | frame : Frame → Raw
deriving Repr, DecidableEq

/-- The `ws.on('message')` handler of `src/server.js` (lines 214-232).
Returns the updated `clients` map together with the list of sends the
handler performed, as `(connection, frame)` pairs. The forwarded frame
`{ ...parsedMessage, sender: parsedMessage.userKey }` copies every field
of the inbound frame and then overwrites `sender` with `userKey` (JS
spread followed by an explicit property). A `JSON.parse` failure is
caught: nothing is sent, the map is unchanged, and the connection stays
open; likewise for any unrecognized `type`. -/
def route (clients : ClientMap) (ws : Conn) (raw : Raw) :
    ClientMap × List (Conn × Frame) :=
  match raw with
  | .malformed => (clients, [])
  | .frame f =>
    if f.type == "register" then
      (clientsSet clients f.userKey ws, [])
    else if f.type == "offer" || f.type == "answer" || f.type == "candidate" then
      match clientsGet clients f.target with
      | some targetClient => (clients, [(targetClient, { f with sender := f.userKey })])
      | none => (clients, [])
    else
      (clients, [])

/-- Frame kinds relayed peer-to-peer by the router. -/
def isSignalKind (t : String) : Bool :=
  t == "offer" || t == "answer" || t == "candidate"

/-- Inbound messages the router drops without any effect: unparsable text,
and frames whose kind is none of register, offer, answer, candidate. -/
def isDroppable : Raw → Bool
  | .malformed => true
  | .frame f => !(f.type == "register" || isSignalKind f.type)

/-- A `register` frame carrying client key `k`, as in the spec scenario
`\x7bkind: register, userKey: k\x7d`. -/
def registerFrame (k : String) : Frame :=
  { type := "register", userKey := some k, target := none, sender := none, extra := [] }

/-- One externally observable hub event: an inbound socket message on a
connection, or a connection close. -/
inductive Event where
  | msg : Conn → Raw → Event
  | close : Conn → Event
deriving Repr

/-- The `clients`-map effect of one hub event: the message handler for an
inbound frame, the close handler for a disconnect. -/
def stepEvent (clients : ClientMap) : Event → ClientMap
  | .msg ws raw => (route clients ws raw).1
  | .close ws => clientsRemoveConn clients ws

/-- The `clients` map reached after a sequence of hub events. -/
def runEvents (clients : ClientMap) (es : List Event) : ClientMap :=
  es.foldl stepEvent clients

section RouterLemmas

lemma signal_not_register {t : String} (hk : isSignalKind t = true) :
    (t == "register") = false := by
  simp only [isSignalKind, Bool.or_eq_true, beq_iff_eq] at hk
  rcases hk with (h | h) | h <;> subst h <;> rfl

lemma route_signal_found (clients : ClientMap) (ws : Conn) (f : Frame) (tc : Conn)
    (hk : isSignalKind f.type = true) (ht : clientsGet clients f.target = some tc) :
    route clients ws (.frame f) = (clients, [(tc, { f with sender := f.userKey })]) := by
  have hk2 : (f.type == "offer" || f.type == "answer" || f.type == "candidate") = true := hk
  simp [route, signal_not_register hk, hk2, ht]

lemma route_signal_notfound (clients : ClientMap) (ws : Conn) (f : Frame)
    (hk : isSignalKind f.type = true) (ht : clientsGet clients f.target = none) :
    route clients ws (.frame f) = (clients, []) := by
  have hk2 : (f.type == "offer" || f.type == "answer" || f.type == "candidate") = true := hk
  simp [route, signal_not_register hk, hk2, ht]

lemma find?_map_replace (m : ClientMap) (k : Key) (c : Conn)
    (h : m.any (fun e => e.1 == k) = true) :
    List.find? (fun e => e.1 == k) (m.map (fun e => if e.1 == k then (k, c) else e))
      = some (k, c) := by
  induction m with
  | nil => simp at h
  | cons e rest ih =>
    by_cases he : (e.1 == k) = true
    · rw [List.map_cons, if_pos he]
      exact List.find?_cons_of_pos _ (by simp)
    · rw [List.map_cons, if_neg (by simp [he]), List.find?_cons_of_neg _ (by simp [he])]
      exact ih (by simpa [List.any_cons, he] using h)

lemma find?_append_new (m : ClientMap) (k : Key) (c : Conn)
    (h : m.any (fun e => e.1 == k) = false) :
    List.find? (fun e => e.1 == k) (m ++ [(k, c)]) = some (k, c) := by
  induction m with
  | nil => exact List.find?_cons_of_pos _ (by simp)
  | cons e rest ih =>
    simp only [List.any_cons, Bool.or_eq_false_iff] at h
    rw [List.cons_append, List.find?_cons_of_neg _ (by simp [h.1])]
    exact ih h.2

lemma clientsGet_clientsSet_self (m : ClientMap) (k : Key) (c : Conn) :
    clientsGet (clientsSet m k c) k = some c := by
  unfold clientsSet clientsGet
  by_cases h : m.any (fun e => e.1 == k) = true
  · rw [if_pos h, find?_map_replace m k c h]
  · rw [if_neg h, find?_append_new m k c (Bool.eq_false_iff.mpr h)]

end RouterLemmas

/-- Claim C6: a signaling frame (offer, answer or candidate) whose target
key is not registered produces zero outbound sends, no error notification
to the sender, and leaves the `clients` map unchanged; the connection is
not closed (the handler has no close or error path on this branch). -/
theorem relay_unregistered_target_drops (clients : ClientMap) (ws : Conn) (f : Frame)
    (hk : isSignalKind f.type = true) (ht : clientsGet clients f.target = none) :
    route clients ws (.frame f) = (clients, []) :=
  route_signal_notfound clients ws f hk ht

/-- Witness for C6: a concrete offer to the unregistered key u9 on a map
holding only u1 is dropped with no sends and no map change. -/
theorem relay_unregistered_target_drops_witness :
    isSignalKind "offer" = true ∧
    clientsGet [(some "u1", 1)] (some "u9") = none ∧
    route [(some "u1", 1)] 2
      (.frame { type := "offer", userKey := some "u2", target := some "u9",
                sender := none, extra := [("sdp", "x")] }) = ([(some "u1", 1)], []) :=
  ⟨by decide, by decide,
    relay_unregistered_target_drops [(some "u1", 1)] 2
      { type := "offer", userKey := some "u2", target := some "u9",
        sender := none, extra := [("sdp", "x")] } (by decide) (by decide)⟩

/-- Claim C7: an inbound socket message that fails to parse as JSON, or
whose kind is none of register, offer, answer, candidate, is dropped
silently: no outbound send, no error surfaced to the sender, the
connection stays open, and the `clients` map is unchanged. -/
theorem router_drops_malformed_and_unknown (clients : ClientMap) (ws : Conn) (raw : Raw)
    (h : isDroppable raw = true) :
    route clients ws raw = (clients, []) := by
  cases raw with
  | malformed => rfl
  | frame f =>
    simp only [isDroppable, Bool.not_eq_true', Bool.or_eq_false_iff] at h
    have h2 : (f.type == "offer" || f.type == "answer" || f.type == "candidate") = false := h.2
    simp [route, h.1, h2]

/-- Witness for C7: a concrete frame of unrecognized kind ping is dropped
with no sends and no map change. -/
theorem router_drops_malformed_and_unknown_witness :
    isDroppable (.frame { type := "ping", userKey := some "u1", target := none,
                          sender := none, extra := [] }) = true ∧
    route [(some "u1", 1)] 1
      (.frame { type := "ping", userKey := some "u1", target := none,
                sender := none, extra := [] }) = ([(some "u1", 1)], []) :=
  ⟨by decide,
    router_drops_malformed_and_unknown [(some "u1", 1)] 1
      (.frame { type := "ping", userKey := some "u1", target := none,
                sender := none, extra := [] }) (by decide)⟩

/-- Counterexample for C3: relaying is not a verbatim passthrough of all
fields. A frame that already carries a caller-attached sender field
(here spoof) is forwarded with that field changed: the relay overwrites
it with the frame's userKey (u2), so the forwarded copy does not contain
all of the original frame's fields unchanged. -/
theorem relay_not_verbatim_on_sender_field :
    route [(some "u1", 5)] 7
        (.frame { type := "offer", userKey := some "u2", target := some "u1",
                  sender := some "spoof", extra := [("sdp", "x")] })
      = ([(some "u1", 5)],
         [(5, { type := "offer", userKey := some "u2", target := some "u1",
                sender := some "u2", extra := [("sdp", "x")] })]) ∧
    (some "u2" : Option String) ≠ some "spoof" := by
  constructor
  · rfl
  · decide

/-- Claim C3 (amended): for every signaling frame (offer, answer or
candidate) whose target is registered, the router sends to that single
target connection — and to no other connection — a copy of the frame in
which every field other than sender (type, userKey, target, and all
extra caller-attached fields such as sdp) is unchanged, and sender is
set to the frame's userKey, overwriting any caller-supplied sender. -/
theorem relay_forwards_with_sender (clients : ClientMap) (ws : Conn) (f : Frame) (tc : Conn)
    (hk : isSignalKind f.type = true) (ht : clientsGet clients f.target = some tc) :
    route clients ws (.frame f) = (clients, [(tc, { f with sender := f.userKey })]) ∧
    ({ f with sender := f.userKey } : Frame).type = f.type ∧
    ({ f with sender := f.userKey } : Frame).userKey = f.userKey ∧
    ({ f with sender := f.userKey } : Frame).target = f.target ∧
    ({ f with sender := f.userKey } : Frame).extra = f.extra ∧
    ({ f with sender := f.userKey } : Frame).sender = f.userKey :=
  ⟨route_signal_found clients ws f tc hk ht, rfl, rfl, rfl, rfl, rfl⟩

/-- Witness for C3 (amended): the spec scenario — u2 sends an offer with
an sdp field to registered target u1; connection 1 (u1) receives the
frame with sender u2 added, and no one else receives anything. -/
theorem relay_forwards_with_sender_witness :
    isSignalKind "offer" = true ∧
    clientsGet [(some "u1", 1)] (some "u1") = some 1 ∧
    (route [(some "u1", 1)] 2
        (.frame { type := "offer", userKey := some "u2", target := some "u1",
                  sender := none, extra := [("sdp", "x")] })
      = ([(some "u1", 1)],
         [(1, { type := "offer", userKey := some "u2", target := some "u1",
                sender := some "u2", extra := [("sdp", "x")] })]) ∧
     ({ type := "offer", userKey := some "u2", target := some "u1",
        sender := some "u2", extra := [("sdp", "x")] } : Frame).type = "offer" ∧
     ({ type := "offer", userKey := some "u2", target := some "u1",
        sender := some "u2", extra := [("sdp", "x")] } : Frame).userKey = some "u2" ∧
     ({ type := "offer", userKey := some "u2", target := some "u1",
        sender := some "u2", extra := [("sdp", "x")] } : Frame).target = some "u1" ∧
     ({ type := "offer", userKey := some "u2", target := some "u1",
        sender := some "u2", extra := [("sdp", "x")] } : Frame).extra = [("sdp", "x")] ∧
     ({ type := "offer", userKey := some "u2", target := some "u1",
        sender := some "u2", extra := [("sdp", "x")] } : Frame).sender = some "u2") :=
  ⟨by decide, by decide,
    relay_forwards_with_sender [(some "u1", 1)] 2
      { type := "offer", userKey := some "u2", target := some "u1",
        sender := none, extra := [("sdp", "x")] } 1 (by decide) (by decide)⟩

/-- Claim C10: the forwarded copy of a relayed signaling frame always has
sender equal to the inbound frame's userKey, even when the inbound frame
already carried a sender field with any other value: the spread followed
by the explicit sender property overwrites it, never passes it through. -/
theorem relay_overwrites_sender (clients : ClientMap) (ws : Conn) (f : Frame) (tc : Conn)
    (hk : isSignalKind f.type = true) (ht : clientsGet clients f.target = some tc) :
    (route clients ws (.frame f)).2 = [(tc, { f with sender := f.userKey })] ∧
    ({ f with sender := f.userKey } : Frame).sender = f.userKey := by
  refine ⟨?_, rfl⟩
  rw [route_signal_found clients ws f tc hk ht]

/-- Witness for C10: a frame spoofing sender as mallory is relayed with
sender overwritten to the real userKey u2. -/
theorem relay_overwrites_sender_witness :
    isSignalKind "candidate" = true ∧
    clientsGet [(some "u1", 1)] (some "u1") = some 1 ∧
    ((route [(some "u1", 1)] 2
        (.frame { type := "candidate", userKey := some "u2", target := some "u1",
                  sender := some "mallory", extra := [] })).2
      = [(1, { type := "candidate", userKey := some "u2", target := some "u1",
               sender := some "u2", extra := [] })] ∧
     ({ type := "candidate", userKey := some "u2", target := some "u1",
        sender := some "u2", extra := [] } : Frame).sender = some "u2") :=
  ⟨by decide, by decide,
    relay_overwrites_sender [(some "u1", 1)] 2
      { type := "candidate", userKey := some "u2", target := some "u1",
        sender := some "mallory", extra := [] } 1 (by decide) (by decide)⟩

/-- Claim C4: last-writer-wins registration. After key k is registered
from connection c1 and then re-registered from a different connection c2
(both via register frames through the message handler), a lookup of k
yields c2, and any signaling frame targeted at k is delivered only to c2:
the produced send list is exactly one send to c2, and contains no send to
c1. -/
theorem register_last_writer_wins (clients : ClientMap) (k : String) (c1 c2 ws : Conn)
    (f : Frame) (hne : c1 ≠ c2) (hk : isSignalKind f.type = true)
    (ht : f.target = some k) :
    clientsGet (runEvents clients
        [.msg c1 (.frame (registerFrame k)), .msg c2 (.frame (registerFrame k))])
      (some k) = some c2 ∧
    (route (runEvents clients
        [.msg c1 (.frame (registerFrame k)), .msg c2 (.frame (registerFrame k))])
      ws (.frame f)).2
      = [(c2, { f with sender := f.userKey })] ∧
    List.filter (fun p => p.1 == c1)
      (route (runEvents clients
          [.msg c1 (.frame (registerFrame k)), .msg c2 (.frame (registerFrame k))])
        ws (.frame f)).2 = [] := by
  have hreg : runEvents clients
      [.msg c1 (.frame (registerFrame k)), .msg c2 (.frame (registerFrame k))]
      = clientsSet (clientsSet clients (some k) c1) (some k) c2 := by
    simp [runEvents, stepEvent, route, registerFrame]
  have hget : clientsGet (clientsSet (clientsSet clients (some k) c1) (some k) c2)
      (some k) = some c2 := clientsGet_clientsSet_self _ _ _
  have hsend := route_signal_found
    (clientsSet (clientsSet clients (some k) c1) (some k) c2) ws f c2 hk (ht ▸ hget)
  refine ⟨hreg ▸ hget, ?_, ?_⟩
  · rw [hreg, hsend]
  · rw [hreg, hsend]
    have hcc : (c2 == c1) = false := beq_eq_false_iff_ne.mpr (Ne.symm hne)
    simp [List.filter, hcc]

/-- Witness for C4: key u1 registered from connection 1 then connection 2;
an offer from u2 targeting u1 reaches only connection 2. -/
theorem register_last_writer_wins_witness :
    (1 : Conn) ≠ 2 ∧ isSignalKind "offer" = true ∧
    ({ type := "offer", userKey := some "u2", target := some "u1",
       sender := none, extra := [] } : Frame).target = some "u1" ∧
    (clientsGet (runEvents []
        [.msg 1 (.frame (registerFrame "u1")), .msg 2 (.frame (registerFrame "u1"))])
      (some "u1") = some 2 ∧
     (route (runEvents []
        [.msg 1 (.frame (registerFrame "u1")), .msg 2 (.frame (registerFrame "u1"))])
       3 (.frame { type := "offer", userKey := some "u2", target := some "u1",
                   sender := none, extra := [] })).2
       = [(2, { type := "offer", userKey := some "u2", target := some "u1",
                sender := some "u2", extra := [] })] ∧
     List.filter (fun p => p.1 == 1)
       (route (runEvents []
          [.msg 1 (.frame (registerFrame "u1")), .msg 2 (.frame (registerFrame "u1"))])
         3 (.frame { type := "offer", userKey := some "u2", target := some "u1",
                     sender := none, extra := [] })).2 = []) :=
  ⟨by decide, by decide, by decide,
    register_last_writer_wins [] "u1" 1 2 3
      { type := "offer", userKey := some "u2", target := some "u1",
        sender := none, extra := [] } (by decide) (by decide) (by decide)⟩

section RegistryInvariant

lemma keys_clientsSet_mem (m : ClientMap) (k : Key) (c : Conn)
    (h : m.any (fun e => e.1 == k) = true) :
    (clientsSet m k c).map Prod.fst = m.map Prod.fst := by
  unfold clientsSet
  rw [if_pos h, List.map_map]
  refine List.map_congr_left ?_
  intro e _
  by_cases he : e.1 = k
  · simp [he]
  · simp [he]

lemma keys_clientsSet_new (m : ClientMap) (k : Key) (c : Conn)
    (h : m.any (fun e => e.1 == k) = false) :
    (clientsSet m k c).map Prod.fst = m.map Prod.fst ++ [k] := by
  unfold clientsSet
  rw [if_neg (by simp [h])]
  simp

lemma nodup_keys_clientsSet (m : ClientMap) (k : Key) (c : Conn)
    (h : (m.map Prod.fst).Nodup) : ((clientsSet m k c).map Prod.fst).Nodup := by
  by_cases hmem : m.any (fun e => e.1 == k) = true
  · rw [keys_clientsSet_mem m k c hmem]
    exact h
  · have hfalse : m.any (fun e => e.1 == k) = false := Bool.eq_false_iff.mpr hmem
    rw [keys_clientsSet_new m k c hfalse]
    have hnotin : k ∉ m.map Prod.fst := by
      intro hin
      rcases List.mem_map.mp hin with ⟨e, hem, hek⟩
      have := List.any_eq_false.mp hfalse e hem
      simp [hek] at this
    simp [List.nodup_append, h, hnotin]

lemma nodup_keys_route (m : ClientMap) (ws : Conn) (raw : Raw)
    (h : (m.map Prod.fst).Nodup) : (((route m ws raw).1).map Prod.fst).Nodup := by
  cases raw with
  | malformed => exact h
  | frame f =>
    unfold route
    by_cases h1 : (f.type == "register") = true
    · simp only [h1, if_true]
      exact nodup_keys_clientsSet m f.userKey ws h
    · simp only [h1]
      rw [if_neg (by simp [h1])]
      by_cases h2 : (f.type == "offer" || f.type == "answer" || f.type == "candidate") = true
      · rw [if_pos h2]
        cases clientsGet m f.target with
        | some tc => exact h
        | none => exact h
      · rw [if_neg (by simp at h2 ⊢; tauto)]
        exact h

lemma nodup_keys_stepEvent (m : ClientMap) (e : Event)
    (h : (m.map Prod.fst).Nodup) : ((stepEvent m e).map Prod.fst).Nodup := by
  cases e with
  | msg ws raw => exact nodup_keys_route m ws raw h
  | close ws =>
    unfold stepEvent clientsRemoveConn
    exact h.sublist ((List.filter_sublist m).map Prod.fst)

lemma nodup_keys_runEvents (m : ClientMap) (es : List Event)
    (h : (m.map Prod.fst).Nodup) : ((runEvents m es).map Prod.fst).Nodup := by
  induction es generalizing m with
  | nil => exact h
  | cons e rest ih => exact ih (stepEvent m e) (nodup_keys_stepEvent m e h)

end RegistryInvariant

/-- Counterexample for C5: one connection can hold two registry entries
at once. Starting from the empty map, connection 1 sends a register
frame with userKey a and then a register frame with userKey b; the
resulting `clients` map holds the two distinct keys a and b both mapped
to connection 1, refuting the claim that a connection maps to at most
one registry entry. -/
theorem registry_conn_two_entries :
    runEvents [] [.msg 1 (.frame (registerFrame "a")), .msg 1 (.frame (registerFrame "b"))]
      = [(some "a", 1), (some "b", 1)] ∧
    (some "a", 1) ∈ ([(some "a", 1), (some "b", 1)] : ClientMap) ∧
    (some "b", 1) ∈ ([(some "a", 1), (some "b", 1)] : ClientMap) ∧
    (some "a" : Key) ≠ some "b" := by
  refine ⟨rfl, by decide, by decide, by decide⟩

/-- Claim C5 (amended): in every state reachable from the empty `clients`
map by any sequence of inbound frames and connection closes, each client
key maps to at most one registry entry — the key list of the map has no
duplicates (a `Map` keyed by client key). A single connection may,
however, be registered under several distinct keys simultaneously. -/
theorem registry_keys_nodup (es : List Event) :
    ((runEvents [] es).map Prod.fst).Nodup :=
  nodup_keys_runEvents [] es List.nodup_nil

/-- Claim C8: the close-handler cleanup. An entry survives the cleanup
for connection c exactly when its value is a different connection — so
every entry whose value equals c (every key the closing connection was
registered under) is removed, entries mapped to other connections are
kept unchanged, and when the closing connection was never registered the
map is returned unchanged (a safe no-op). -/
theorem close_cleanup_spec (m : ClientMap) (c : Conn) (e : Key × Conn) :
    (e ∈ clientsRemoveConn m c ↔ e ∈ m ∧ e.2 ≠ c) ∧
    (m.all (fun x => x.2 != c) = true → clientsRemoveConn m c = m) := by
  constructor
  · unfold clientsRemoveConn
    rw [List.mem_filter]
    simp [bne_iff_ne]
  · intro hall
    unfold clientsRemoveConn
    exact List.filter_eq_self.mpr (fun x hx => List.all_eq_true.mp hall x hx)

/-- Witness for C8: connection 1 was registered under keys a and c;
closing it removes both entries and keeps key b (connection 2); closing
the never-registered connection 9 is a no-op. -/
theorem close_cleanup_spec_witness :
    ((some "b", 2) ∈ clientsRemoveConn [(some "a", 1), (some "b", 2), (some "c", 1)] 1 ∧
     ¬((some "a", 1) ∈ clientsRemoveConn [(some "a", 1), (some "b", 2), (some "c", 1)] 1) ∧
     clientsRemoveConn [(some "a", 1), (some "b", 2), (some "c", 1)] 9
       = [(some "a", 1), (some "b", 2), (some "c", 1)]) :=
  ⟨((close_cleanup_spec [(some "a", 1), (some "b", 2), (some "c", 1)] 1
      ((some "b", 2))).1).mpr ⟨by decide, by decide⟩,
   fun hmem => absurd (((close_cleanup_spec [(some "a", 1), (some "b", 2), (some "c", 1)] 1
      ((some "a", 1))).1).mp hmem).2 (by decide),
   (close_cleanup_spec [(some "a", 1), (some "b", 2), (some "c", 1)] 9
      ((some "a", 1))).2 (by decide)⟩

/-- A stored chat message, the hash written under `message:<id>`: `id`
from the atomic counter, `created_at` set once at creation, `updated_at`
null (`none`) at creation and set on every update. -/
structure MessageRecord where
  id : Nat
  sender_id : String
  receiver_id : String
  content : String
  created_at : Nat
  updated_at : Option Nat
deriving Repr, DecidableEq

/-- An outbound data-change event, the argument of `broadcast(...)`:
`\x7b type, data \x7d` with the full record for new and update, and only
the id for delete. -/
inductive WireEvent where
  | new_message : MessageRecord → WireEvent
  | update_message : MessageRecord → WireEvent
  | delete_message : Nat → WireEvent
deriving Repr, DecidableEq

/-- The Redis state used by the message routes: the `message_id` counter
and the `message:<id>` hashes, as an id-keyed entry list. -/
structure Store where
  counter : Nat
  messages : List (Nat × MessageRecord)
deriving Repr, DecidableEq

/-- Read of the hash `message:<id>` (`redis.hgetall`); `none` models the
empty reply for a missing key (and a truthless `redis.exists`). -/
def msgGet (l : List (Nat × MessageRecord)) (id : Nat) : Option MessageRecord :=
  match l.find? (fun e => e.1 == id) with
  | some e => some e.2
  | none => none

/-- Full-record `redis.hmset` on `message:<id>`: replaces the stored hash
when the key exists, otherwise creates it. -/
def msgSet (l : List (Nat × MessageRecord)) (id : Nat) (m : MessageRecord) :
    List (Nat × MessageRecord) :=
  if l.any (fun e => e.1 == id) then
    l.map (fun e => if e.1 == id then (id, m) else e)
  else
    l ++ [(id, m)]

/-- `generateId` (lines 15-17): `redis.incr('message_id')` returns the
incremented counter value. -/
def generateId (s : Store) : Nat × Store :=
  (s.counter + 1, { s with counter := s.counter + 1 })

/-- `createMessage` (lines 52-69): a fresh id, `created_at` set to the
current instant, `updated_at` null, the record written to the store and
returned. -/
def createMessage (sender_id receiver_id content : String) (now : Nat) (s : Store) :
    MessageRecord × Store :=
  let idStore := generateId s
  let messageData : MessageRecord :=
    { id := idStore.1, sender_id := sender_id, receiver_id := receiver_id,
      content := content, created_at := now, updated_at := none }
  (messageData, { idStore.2 with messages := msgSet idStore.2.messages idStore.1 messageData })

/-- `broadcast(data)` of `src/server.js` (lines 244-248) in the
failure-free case: `clients.forEach((ws) => ws.send(JSON.stringify(data)))`
sends the event once per entry of the `clients` map, in insertion order.
It iterates the registry map, not the set of open sockets. -/
def broadcast (clients : ClientMap) (data : WireEvent) : List (Conn × WireEvent) :=
  clients.map (fun e => (e.2, data))

/-- `broadcast(data)` with a possibly throwing `ws.send`: `fails c = true`
means the send on connection `c` throws (for example a half-closed
socket). `Map.prototype.forEach` runs the callback with no try/catch
around it, so the first throwing send aborts the iteration and the
exception escapes `broadcast` to its caller. Returns the deliveries made
before the failure, and whether an exception escaped. -/
def broadcastWith (fails : Conn → Bool) (clients : ClientMap) (data : WireEvent) :
    List (Conn × WireEvent) × Bool :=
  match clients with
  | [] => ([], false)
  | e :: rest =>
    if fails e.2 then ([], true)
    else
      let r := broadcastWith fails rest data
      ((e.2, data) :: r.1, r.2)

/-- Sanity: with no failing connection, `broadcastWith` is exactly
`broadcast` and no exception escapes. -/
lemma broadcastWith_no_failure (clients : ClientMap) (data : WireEvent) :
    broadcastWith (fun _ => false) clients data = (broadcast clients data, false) := by
  induction clients with
  | nil => rfl
  | cons e rest ih => simp [broadcastWith, broadcast, ih]

/-- Result of `app.post('/messages')`: `badRequest` is the 400 reply for
a missing field, `created` the 201 `\x7b message, data \x7d` reply. -/
inductive PostResult where
  | badRequest : PostResult
  | created : MessageRecord → PostResult
deriving Repr, DecidableEq

/-- The `app.post('/messages')` handler (lines 107-127): 400 when any of
`sender_id`, `receiver_id`, `content` is falsy (absent or empty string),
otherwise create the message, broadcast a `new_message` event carrying
the full record, and respond 201. Returns the HTTP result, the broadcast
deliveries, and the updated store. -/
def postMessage (sender_id receiver_id content : String) (now : Nat) (s : Store)
    (clients : ClientMap) : PostResult × List (Conn × WireEvent) × Store :=
  if sender_id == "" || receiver_id == "" || content == "" then
    (.badRequest, [], s)
  else
    let r := createMessage sender_id receiver_id content now s
    (.created r.1, broadcast clients (.new_message r.1), r.2)

/-- `updateMessageById` (lines 90-100): `hmset(messageKey, \x7b content,
updated_at \x7d)` merges exactly those two fields into the stored hash,
leaving `id`, `sender_id`, `receiver_id` and `created_at` untouched, then
`hgetall` re-reads the full record. The PUT route calls it only after a
successful `redis.exists` check, so the missing-key branch returns the
store unchanged. -/
def updateMessageById (id : Nat) (content : String) (now : Nat) (s : Store) :
    Option MessageRecord × Store :=
  match msgGet s.messages id with
  | some m =>
    let m2 := { m with content := content, updated_at := some now }
    (some m2, { s with messages := msgSet s.messages id m2 })
  | none => (none, s)

/-- Result of `app.put('/messages/:id')`: 400 for missing content, 404
for a missing key, 200 `\x7b message, data \x7d` on success. -/
inductive PutResult where
  | badRequest : PutResult
  | notFound : PutResult
  | ok : MessageRecord → PutResult
deriving Repr, DecidableEq

/-- The `app.put('/messages/:id')` handler (lines 155-182): 400 when
`content` is falsy, 404 when `redis.exists` fails, otherwise update via
`updateMessageById`, broadcast an `update_message` event with the updated
record, and respond 200. -/
def putMessage (id : Nat) (content : String) (now : Nat) (s : Store)
    (clients : ClientMap) : PutResult × List (Conn × WireEvent) × Store :=
  if content == "" then (.badRequest, [], s)
  else
    match msgGet s.messages id with
    | none => (.notFound, [], s)
    | some _ =>
      match updateMessageById id content now s with
      | (some m2, s2) => (.ok m2, broadcast clients (.update_message m2), s2)
      | (none, s2) => (.notFound, [], s2)

/-- Number of broadcast deliveries received by connection `c`. -/
def deliveriesTo (c : Conn) (sends : List (Conn × WireEvent)) : Nat :=
  (sends.filter (fun p => p.1 == c)).length

lemma deliveriesTo_broadcast (c : Conn) (clients : ClientMap) (data : WireEvent) :
    deliveriesTo c (broadcast clients data)
      = (clients.filter (fun e => e.2 == c)).length := by
  induction clients with
  | nil => rfl
  | cons e rest ih =>
    simp only [deliveriesTo, broadcast, List.map_cons, List.filter_cons] at ih ⊢
    by_cases he : (e.2 == c) = true
    · simp [he, ih]
    · simp [he, ih]

/-- The server state relevant to fan-out: `wss.clients`, the set of
currently open WebSocket connections, alongside the `clients` registry
map. A connection enters the map only by sending a register frame, so an
open connection need not appear in it; `broadcast` iterates the map, not
the open-connection set. -/
structure Hub where
  opens : List Conn
  clients : ClientMap
deriving Repr, DecidableEq

/-- Well-formedness of a hub state: every registered connection is open. -/
def Hub.wf (h : Hub) : Bool :=
  h.clients.all (fun e => h.opens.contains e.2)

/-- Counterexample for C1: a successful POST /messages does not notify
every open WebSocket connection. In the well-formed hub state with open
connections 1 and 2 where only connection 2 ever registered, the POST
succeeds (201, record stored and returned) but the broadcast delivers
the new_message event to connection 2 only: the open connection 1
receives zero events, not exactly one. -/
theorem post_skips_unregistered_connection :
    Hub.wf { opens := [1, 2], clients := [(some "a", 2)] } = true ∧
    (1 : Conn) ∈ ({ opens := [1, 2], clients := [(some "a", 2)] } : Hub).opens ∧
    postMessage "u1" "u2" "hi" 5 { counter := 0, messages := [] } [(some "a", 2)] =
      (.created { id := 1, sender_id := "u1", receiver_id := "u2", content := "hi",
                  created_at := 5, updated_at := none },
       [(2, .new_message { id := 1, sender_id := "u1", receiver_id := "u2",
                           content := "hi", created_at := 5, updated_at := none })],
       { counter := 1,
         messages := [(1, { id := 1, sender_id := "u1", receiver_id := "u2",
                            content := "hi", created_at := 5, updated_at := none })] }) ∧
    deliveriesTo 1
      [(2, .new_message { id := 1, sender_id := "u1", receiver_id := "u2",
                          content := "hi", created_at := 5, updated_at := none })] = 0 :=
  ⟨by decide, by decide, rfl, by decide⟩

/-- Claim C1 (amended): after a successful POST /messages (all of
sender_id, receiver_id, content present, i.e. non-empty), the server
responds 201 with the created record (id from the counter, the given
fields, created_at the current instant, updated_at null), stores it, and
broadcasts one new_message event carrying that full record per entry of
the `clients` registry map: a connection receives exactly as many copies
as it has registry entries — in particular one when registered under one
key, and zero when it never registered, even while open. -/
theorem post_broadcasts_to_registry (sender_id receiver_id content : String)
    (now : Nat) (s : Store) (clients : ClientMap) (c : Conn)
    (hs : sender_id ≠ "") (hr : receiver_id ≠ "") (hc : content ≠ "") :
    postMessage sender_id receiver_id content now s clients =
      (.created { id := s.counter + 1, sender_id := sender_id,
                  receiver_id := receiver_id, content := content,
                  created_at := now, updated_at := none },
       broadcast clients
         (.new_message { id := s.counter + 1, sender_id := sender_id,
                         receiver_id := receiver_id, content := content,
                         created_at := now, updated_at := none }),
       { counter := s.counter + 1,
         messages := msgSet s.messages (s.counter + 1)
           { id := s.counter + 1, sender_id := sender_id,
             receiver_id := receiver_id, content := content,
             created_at := now, updated_at := none } }) ∧
    deliveriesTo c
      (broadcast clients
        (.new_message { id := s.counter + 1, sender_id := sender_id,
                        receiver_id := receiver_id, content := content,
                        created_at := now, updated_at := none }))
      = (clients.filter (fun e => e.2 == c)).length := by
  have h1 : (sender_id == "") = false := beq_eq_false_iff_ne.mpr hs
  have h2 : (receiver_id == "") = false := beq_eq_false_iff_ne.mpr hr
  have h3 : (content == "") = false := beq_eq_false_iff_ne.mpr hc
  refine ⟨?_, deliveriesTo_broadcast _ _ _⟩
  simp [postMessage, createMessage, generateId, h1, h2, h3]

/-- Witness for C1 (amended): the spec scenario POST with u1, u2, hi on a
map where connection 2 is registered under one key — connection 2
receives exactly one new_message event with the full record. -/
theorem post_broadcasts_to_registry_witness :
    ("u1" : String) ≠ "" ∧ ("u2" : String) ≠ "" ∧ ("hi" : String) ≠ "" ∧
    (postMessage "u1" "u2" "hi" 5 { counter := 0, messages := [] } [(some "a", 2)] =
      (.created { id := 1, sender_id := "u1", receiver_id := "u2", content := "hi",
                  created_at := 5, updated_at := none },
       broadcast [(some "a", 2)]
         (.new_message { id := 1, sender_id := "u1", receiver_id := "u2",
                         content := "hi", created_at := 5, updated_at := none }),
       { counter := 1,
         messages := msgSet [] 1
           { id := 1, sender_id := "u1", receiver_id := "u2", content := "hi",
             created_at := 5, updated_at := none } }) ∧
     deliveriesTo 2
       (broadcast [(some "a", 2)]
         (.new_message { id := 1, sender_id := "u1", receiver_id := "u2",
                         content := "hi", created_at := 5, updated_at := none }))
       = (List.filter (fun e => e.2 == 2) [((some "a" : Key), (2 : Conn))]).length) :=
  ⟨by decide, by decide, by decide,
    post_broadcasts_to_registry "u1" "u2" "hi" 5 { counter := 0, messages := [] }
      [(some "a", 2)] 2 (by decide) (by decide) (by decide)⟩

/-- Claim C2 is violated by the code: `broadcast` wraps no try/catch
around `ws.send`, so a throwing send aborts `Map.forEach` and the
exception escapes to the caller. Concretely, with the two registered
open connections 1 and 2 where the send to connection 1 throws,
connection 2 receives nothing (zero deliveries instead of the claimed
N-1 = 1) and the exception propagates; the same broadcast with no
failure would have delivered to both. -/
theorem broadcast_throw_aborts_delivery :
    broadcastWith (fun c => c == 1) [(some "a", 1), (some "b", 2)]
        (.delete_message 7) = ([], true) ∧
    broadcastWith (fun _ => false) [(some "a", 1), (some "b", 2)]
        (.delete_message 7)
      = ([(1, .delete_message 7), (2, .delete_message 7)], false) :=
  ⟨rfl, rfl⟩

/-- Claim C9: for an existing message id and non-empty content, the PUT
update leaves id, sender_id, receiver_id and created_at unchanged and
sets updated_at to the current instant, which — the clock being monotone,
i.e. not earlier than the instants already stored in the record — is
greater than or equal to the previous updated_at (or created_at when the
record was never updated). -/
theorem update_preserves_immutable_fields (id : Nat) (content : String) (now : Nat)
    (s : Store) (clients : ClientMap) (m : MessageRecord)
    (hm : msgGet s.messages id = some m) (hc : content ≠ "")
    (hcreated : m.created_at ≤ now)
    (hprev : m.updated_at.getD m.created_at ≤ now) :
    putMessage id content now s clients =
      (.ok { m with content := content, updated_at := some now },
       broadcast clients
         (.update_message { m with content := content, updated_at := some now }),
       { s with
         messages := msgSet s.messages id { m with content := content, updated_at := some now } }) ∧
    ({ m with content := content, updated_at := some now } : MessageRecord).id = m.id ∧
    ({ m with content := content, updated_at := some now } : MessageRecord).sender_id
      = m.sender_id ∧
    ({ m with content := content, updated_at := some now } : MessageRecord).receiver_id
      = m.receiver_id ∧
    ({ m with content := content, updated_at := some now } : MessageRecord).created_at
      = m.created_at ∧
    ({ m with content := content, updated_at := some now } : MessageRecord).updated_at
      = some now ∧
    m.created_at ≤ now ∧ m.updated_at.getD m.created_at ≤ now := by
  have h1 : (content == "") = false := beq_eq_false_iff_ne.mpr hc
  refine ⟨?_, rfl, rfl, rfl, rfl, rfl, hcreated, hprev⟩
  simp [putMessage, updateMessageById, hm, h1]

/-- Witness for C9: updating message 7 (created at instant 3, never
updated) with new content at instant 5 keeps its identity fields and
creation instant and stamps updated_at with 5 ≥ 3. -/
theorem update_preserves_immutable_fields_witness :
    msgGet [(7, { id := 7, sender_id := "u1", receiver_id := "u2", content := "old",
                  created_at := 3, updated_at := none })] 7
      = some { id := 7, sender_id := "u1", receiver_id := "u2", content := "old",
               created_at := 3, updated_at := none } ∧
    ("new" : String) ≠ "" ∧
    (putMessage 7 "new" 5
        { counter := 7,
          messages := [(7, { id := 7, sender_id := "u1", receiver_id := "u2",
                             content := "old", created_at := 3, updated_at := none })] }
        [(some "a", 2)] =
      (.ok { id := 7, sender_id := "u1", receiver_id := "u2", content := "new",
             created_at := 3, updated_at := some 5 },
       broadcast [(some "a", 2)]
         (.update_message { id := 7, sender_id := "u1", receiver_id := "u2",
                            content := "new", created_at := 3, updated_at := some 5 }),
       { counter := 7,
         messages := msgSet
           [(7, { id := 7, sender_id := "u1", receiver_id := "u2", content := "old",
                  created_at := 3, updated_at := none })] 7
           { id := 7, sender_id := "u1", receiver_id := "u2", content := "new",
             created_at := 3, updated_at := some 5 } }) ∧
     ({ id := 7, sender_id := "u1", receiver_id := "u2", content := "new",
        created_at := 3, updated_at := some 5 } : MessageRecord).id = 7 ∧
     ({ id := 7, sender_id := "u1", receiver_id := "u2", content := "new",
        created_at := 3, updated_at := some 5 } : MessageRecord).sender_id = "u1" ∧
     ({ id := 7, sender_id := "u1", receiver_id := "u2", content := "new",
        created_at := 3, updated_at := some 5 } : MessageRecord).receiver_id = "u2" ∧
     ({ id := 7, sender_id := "u1", receiver_id := "u2", content := "new",
        created_at := 3, updated_at := some 5 } : MessageRecord).created_at = 3 ∧
     ({ id := 7, sender_id := "u1", receiver_id := "u2", content := "new",
        created_at := 3, updated_at := some 5 } : MessageRecord).updated_at = some 5 ∧
     (3 : Nat) ≤ 5 ∧
     (Option.getD (none : Option Nat) 3) ≤ 5) :=
  ⟨by decide, by decide,
    update_preserves_immutable_fields 7 "new" 5
      { counter := 7,
        messages := [(7, { id := 7, sender_id := "u1", receiver_id := "u2",
                           content := "old", created_at := 3, updated_at := none })] }
      [(some "a", 2)]
      { id := 7, sender_id := "u1", receiver_id := "u2", content := "old",
        created_at := 3, updated_at := none }
      (by decide) (by decide) (by decide) (by decide)⟩
